import Mathlib

/-!
Verification development for the Polymarket alert bot's anomaly scoring and
adaptive baseline engine (`src/models.py`, `src/detection/analyzer.py`,
`src/storage/database.py`, `src/main.py`).

Embedding conventions:
* USD sizes, prices and volumes (Python floats computed with `+`, `/`, `*`)
  are embedded as exact rationals `ℚ`.
* Timestamps (`datetime` values) are embedded as integer seconds `ℤ`;
  `timedelta(hours=h)` becomes `h * 3600`, and `timedelta.days` (which floors
  the signed duration to whole days) becomes `Int.fdiv · 86400`.  The alert
  ledger's `created_at` is the exception: the code stores SQLite's
  `CURRENT_TIMESTAMP` **text** (UTC, `YYYY-MM-DD HH:MM:SS`) and compares it
  against a **local** `isoformat()` cutoff (`YYYY-MM-DDTHH:MM:SS`), so it is
  embedded as the rendered `String` and the SQL `>` as lexicographic string
  comparison; the local clock's offset ahead of UTC is the `tz` parameter.
* Python's `int(n * 0.90)` / `int(n * 0.95)` on a list length `n` are embedded
  as `n * 9 / 10` / `n * 19 / 20` (natural floor division): for every list
  length reachable in practice the IEEE-754 rounding error of `n * 0.9`
  (resp. `n * 0.95`) is strictly smaller than the distance to the nearest
  crossing of an integer boundary, so truncation agrees with the exact floor.
* The SQLite tables become association lists held in a `DB` structure; SQL
  `INSERT OR IGNORE` keyed on a primary key becomes a membership-guarded
  append, `INSERT OR REPLACE` a keyed replacement, and the cooldown query a
  list scan.  `str.lower()` becomes `strLower` (charwise ASCII
  lowercasing, as Python lowercases the hex-address domain; idempotent there,
  so the code's lower-then-lookup composition is one normalization here).
-/

/-- `src/models.py` `Trade`: one trade event from the venue. -/
structure Trade where
  transaction_hash : String
  market_id : String
  market_question : String
  market_slug : String
  wallet_address : String
  side : String
  size : ℚ
  price : ℚ
  timestamp : ℤ
  outcome : String
  deriving Repr, DecidableEq

/-- `src/models.py` `WalletStats`: running per-wallet aggregate. -/
structure WalletStats where
  address : String
  total_trades : ℕ
  first_seen : ℤ
  last_seen : ℤ
  total_volume : ℚ
  avg_trade_size : ℚ
  deriving Repr, DecidableEq

/-- `src/models.py` `MarketBaseline`: per-market size-distribution snapshot. -/
structure MarketBaseline where
  condition_id : String
  trade_count : ℕ
  total_volume : ℚ
  avg_trade_size : ℚ
  median_trade_size : ℚ
  p90_trade_size : ℚ
  p95_trade_size : ℚ
  last_updated : ℤ
  deriving Repr, DecidableEq

/-- `src/models.py` `AlertCandidate`: a scored trade (ephemeral). -/
structure AlertCandidate where
  trade : Trade
  wallet_stats : Option WalletStats
  market_baseline : Option MarketBaseline
  score : ℕ
  triggers : List String
  deriving Repr, DecidableEq

/-- Configuration of `AnomalyAnalyzer.__init__` (`src/detection/analyzer.py`),
with the source's default values for every recognized option. -/
structure AnalyzerConfig where
  fresh_wallet_max_trades : ℕ := 5
  fresh_wallet_max_days : ℕ := 30
  min_size_usd : ℚ := 2000
  market_percentile : ℕ := 95
  wallet_size_multiplier : ℚ := 5
  concentration_threshold : ℚ := 10
  fresh_wallet_points : ℕ := 2
  large_size_points : ℕ := 2
  market_anomaly_points : ℕ := 2
  wallet_shift_points : ℕ := 3
  concentration_points : ℕ := 3
  alert_threshold : ℕ := 5
  deriving Repr, DecidableEq

/-- Seconds in a day, used to embed `timedelta.days`. -/
def secondsPerDay : ℤ := 86400

/-- `AnomalyAnalyzer._is_fresh_wallet`: absent wallet counts as fresh;
otherwise fresh when the trade count is small or the wallet was first seen
at most `fresh_wallet_max_days` whole days ago (`(now - first_seen).days`
floors the elapsed seconds to whole days). -/
def is_fresh_wallet (cfg : AnalyzerConfig) (now : ℤ) (wallet_stats : Option WalletStats) : Bool :=
  match wallet_stats with
  | none => true
  | some w =>
    if w.total_trades ≤ cfg.fresh_wallet_max_trades then true
    else
      let days_old := (now - w.first_seen).fdiv secondsPerDay
      if days_old ≤ (cfg.fresh_wallet_max_days : ℤ) then true
      else false

/-- `AnomalyAnalyzer._is_large_absolute_size`. -/
def is_large_absolute_size (cfg : AnalyzerConfig) (trade : Trade) : Bool :=
  decide (trade.size ≥ cfg.min_size_usd)

/-- `AnomalyAnalyzer._is_market_anomaly`: compares against the configured
percentile of the baseline; absent baseline never fires. -/
def is_market_anomaly (cfg : AnalyzerConfig) (trade : Trade)
    (baseline : Option MarketBaseline) : Bool :=
  match baseline with
  | none => false
  | some b =>
    let threshold := if cfg.market_percentile = 95 then b.p95_trade_size else b.p90_trade_size
    decide (trade.size ≥ threshold) && decide (threshold > 0)

/-- `AnomalyAnalyzer._is_wallet_shift`: absent wallet or non-positive average
never fires; the division by `avg_trade_size` is only reached behind the
positivity guard. -/
def is_wallet_shift (cfg : AnalyzerConfig) (trade : Trade)
    (wallet_stats : Option WalletStats) : Bool :=
  match wallet_stats with
  | none => false
  | some w =>
    if w.avg_trade_size ≤ 0 then false
    else
      let multiplier := trade.size / w.avg_trade_size
      decide (multiplier ≥ cfg.wallet_size_multiplier)

/-- `AnomalyAnalyzer._is_high_concentration`: absent baseline or non-positive
total volume never fires; the division by `total_volume` is only reached
behind the positivity guard. -/
def is_high_concentration (cfg : AnalyzerConfig) (trade : Trade)
    (baseline : Option MarketBaseline) : Bool :=
  match baseline with
  | none => false
  | some b =>
    if b.total_volume ≤ 0 then false
    else
      let pct := trade.size / b.total_volume * 100
      decide (pct ≥ cfg.concentration_threshold)

/-- `AnomalyAnalyzer.analyze`: evaluates the five triggers unconditionally,
adding each trigger's configured points and appending one description per
fired trigger.  (The Python f-string interpolation of numbers into the
descriptions is elided; each description keeps its identifying text.) -/
def analyze (cfg : AnalyzerConfig) (now : ℤ) (trade : Trade)
    (wallet_stats : Option WalletStats) (market_baseline : Option MarketBaseline) :
    AlertCandidate :=
  let score : ℕ := 0
  let triggers : List String := []
  let (score, triggers) :=
    if is_fresh_wallet cfg now wallet_stats then
      (score + cfg.fresh_wallet_points, triggers ++ ["Fresh wallet"])
    else (score, triggers)
  let (score, triggers) :=
    if is_large_absolute_size cfg trade then
      (score + cfg.large_size_points, triggers ++ ["Large size"])
    else (score, triggers)
  let (score, triggers) :=
    if is_market_anomaly cfg trade market_baseline then
      (score + cfg.market_anomaly_points, triggers ++ ["Market anomaly"])
    else (score, triggers)
  let (score, triggers) :=
    if is_wallet_shift cfg trade wallet_stats then
      (score + cfg.wallet_shift_points, triggers ++ ["Behavior shift"])
    else (score, triggers)
  let (score, triggers) :=
    if is_high_concentration cfg trade market_baseline then
      (score + cfg.concentration_points, triggers ++ ["High concentration"])
    else (score, triggers)
  { trade := trade
    wallet_stats := wallet_stats
    market_baseline := market_baseline
    score := score
    triggers := triggers }

/-- `AnomalyAnalyzer.should_alert`: threshold check on the candidate score. -/
def analyzer_should_alert (cfg : AnalyzerConfig) (candidate : AlertCandidate) : Bool :=
  decide (candidate.score ≥ cfg.alert_threshold)

/-- One row of the `trades` table (`src/storage/database.py`). -/
structure TradeRow where
  transaction_hash : String
  market_id : String
  wallet_address : String
  side : String
  size : ℚ
  price : ℚ
  timestamp : ℤ
  deriving Repr, DecidableEq

/-- Zero-padded two-digit rendering of a calendar field. -/
def pad2 (n : ℕ) : String :=
  String.mk [Nat.digitChar (n / 10 % 10), Nat.digitChar (n % 10)]

/-- Zero-padded four-digit rendering of a year (adequate for years
1000–9999, the only years these timestamps take). -/
def pad4 (n : ℤ) : String :=
  String.mk [Nat.digitChar (n.toNat / 1000 % 10), Nat.digitChar (n.toNat / 100 % 10),
    Nat.digitChar (n.toNat / 10 % 10), Nat.digitChar (n.toNat % 10)]

/-- Gregorian calendar date of a day count from 1970-01-01 (the standard
civil-from-days conversion, floor divisions throughout). -/
def civilFromDays (z0 : ℤ) : ℤ × ℕ × ℕ :=
  let z := z0 + 719468
  let era := z.fdiv 146097
  let doe := (z - era * 146097).toNat
  let yoe := (doe - doe / 1460 + doe / 36524 - doe / 146096) / 365
  let y := (yoe : ℤ) + era * 400
  let doy := doe - (365 * yoe + yoe / 4 - yoe / 100)
  let mp := (5 * doy + 2) / 153
  let d := doy - (153 * mp + 2) / 5 + 1
  let m := if mp < 10 then mp + 3 else mp - 9
  (if m ≤ 2 then y + 1 else y, m, d)

/-- Render an epoch-seconds instant as `YYYY-MM-DD<sep>HH:MM:SS`. -/
def formatTimestamp (sep : String) (t : ℤ) : String :=
  let ymd := civilFromDays (t.fdiv 86400)
  let secs := (t.fmod 86400).toNat
  pad4 ymd.1 ++ "-" ++ pad2 ymd.2.1 ++ "-" ++ pad2 ymd.2.2 ++ sep ++
    pad2 (secs / 3600) ++ ":" ++ pad2 (secs % 3600 / 60) ++ ":" ++ pad2 (secs % 60)

/-- SQLite `CURRENT_TIMESTAMP` text: UTC, space-separated
(`YYYY-MM-DD HH:MM:SS`). -/
def sqliteTimestamp (t : ℤ) : String := formatTimestamp " " t

/-- Python `datetime.isoformat()` text: `T`-separated
(`YYYY-MM-DDTHH:MM:SS`).  `datetime.now()` also carries microseconds, but
in a comparison against a `CURRENT_TIMESTAMP` string the outcome is always
decided at or before the position-10 separator (`' '` vs `'T'`), so the
fractional part can never influence it and is omitted here. -/
def isoTimestamp (t : ℤ) : String := formatTimestamp "T" t

/-- One row of the `alerts` table: the append-only alert ledger.
`created_at` is a TEXT column: the code's `INSERT` omits it, so SQLite
fills `DEFAULT CURRENT_TIMESTAMP` — the UTC wall clock rendered as
`YYYY-MM-DD HH:MM:SS` (the TIMESTAMP column's NUMERIC affinity converts
neither that string nor the query's bound cutoff, so comparisons below are
byte-wise on the text). -/
structure AlertRecord where
  wallet_address : String
  market_id : String
  side : String
  score : ℕ
  triggers : String
  created_at : String
  deriving Repr, DecidableEq

/-- The persistent store (`Database` in `src/storage/database.py`):
the `wallets`, `trades`, `market_baselines` and `alerts` tables. -/
structure DB where
  wallets : List WalletStats
  trades : List TradeRow
  baselines : List MarketBaseline
  alerts : List AlertRecord
  deriving Repr, DecidableEq

/-- Python's `str.lower()` on wallet addresses: charwise lowercasing. -/
def strLower (s : String) : String := ⟨s.data.map Char.toLower⟩

/-- `Database.get_wallet_stats`: lookup by lowercased address. -/
def get_wallet_stats (db : DB) (address : String) : Option WalletStats :=
  db.wallets.find? (fun w => w.address == strLower address)

/-- `Database.update_wallet_stats`: create-or-increment of the per-wallet
aggregate; `now` is the wall-clock processing time `datetime.now()`. -/
def update_wallet_stats (db : DB) (now : ℤ) (trade : Trade) : DB :=
  let address := strLower trade.wallet_address
  match get_wallet_stats db trade.wallet_address with
  | some stats =>
    let new_total_trades := stats.total_trades + 1
    let new_total_volume := stats.total_volume + trade.size
    let new_avg := new_total_volume / (new_total_trades : ℚ)
    { db with wallets := db.wallets.map (fun w =>
        if w.address == address then
          { w with total_trades := new_total_trades, last_seen := now,
                   total_volume := new_total_volume, avg_trade_size := new_avg }
        else w) }
  | none =>
    { db with wallets := db.wallets ++
        [{ address := address, total_trades := 1, first_seen := now, last_seen := now,
           total_volume := trade.size, avg_trade_size := trade.size }] }

/-- `Database.is_trade_processed`: membership test on the full historical
set of transaction hashes. -/
def is_trade_processed (db : DB) (transaction_hash : String) : Bool :=
  db.trades.any (fun r => r.transaction_hash == transaction_hash)

/-- `Database.record_trade`: `INSERT OR IGNORE` keyed on `transaction_hash` —
a duplicate insert leaves the table unchanged and is not an error. -/
def record_trade (db : DB) (trade : Trade) : DB :=
  if is_trade_processed db trade.transaction_hash then db
  else
    { db with trades := db.trades ++
        [{ transaction_hash := trade.transaction_hash, market_id := trade.market_id,
           wallet_address := strLower trade.wallet_address, side := trade.side,
           size := trade.size, price := trade.price, timestamp := trade.timestamp }] }

/-- `Database.get_market_baseline`. -/
def get_market_baseline (db : DB) (condition_id : String) : Option MarketBaseline :=
  db.baselines.find? (fun b => b.condition_id == condition_id)

/-- The arithmetic core of `Database.update_market_baseline`, applied to the
ascending-sorted list of recorded sizes for the market (`ORDER BY size`):
`avg = sum/n`, `median = S[n // 2]`, `p90 = S[int(n*0.90)]` when `n > 10`
else the maximum `S[n-1]`, `p95 = S[int(n*0.95)]` when `n > 20` else
`S[n-1]`; `n = 0` produces no baseline. -/
def compute_baseline (condition_id : String) (now : ℤ) (sizes : List ℚ) :
    Option MarketBaseline :=
  if sizes.isEmpty then none
  else
    let n := sizes.length
    let total := sizes.sum
    let avg := total / (n : ℚ)
    let median := sizes.getD (n / 2) 0
    let p90 := if n > 10 then sizes.getD (n * 9 / 10) 0 else sizes.getD (n - 1) 0
    let p95 := if n > 20 then sizes.getD (n * 19 / 20) 0 else sizes.getD (n - 1) 0
    some { condition_id := condition_id, trade_count := n, total_volume := total,
           avg_trade_size := avg, median_trade_size := median,
           p90_trade_size := p90, p95_trade_size := p95, last_updated := now }

/-- `Database.update_market_baseline`: recompute the baseline from the full
stored history of the market's trade sizes and `INSERT OR REPLACE` it; with
no stored trades it is a no-op. -/
def update_market_baseline (db : DB) (now : ℤ) (condition_id : String) : DB :=
  let sizes := ((db.trades.filter (fun r => r.market_id == condition_id)).map
      (fun r => r.size)).insertionSort (· ≤ ·)
  match compute_baseline condition_id now sizes with
  | none => db
  | some mb =>
    { db with baselines :=
        (db.baselines.filter (fun b => ¬ (b.condition_id == condition_id))) ++ [mb] }

/-- SQLite's binary TEXT collation (memcmp order) on character lists; on
the ASCII timestamp strings at hand, byte order coincides with character
code order. -/
def textLt : List Char → List Char → Bool
  | [], [] => false
  | [], _ :: _ => true
  | _ :: _, [] => false
  | c :: cs, d :: ds =>
    if c.val < d.val then true
    else if d.val < c.val then false
    else textLt cs ds

/-- Strict "greater than" of two TEXT values under SQLite's binary
collation, as the SQL `created_at > ?` evaluates it. -/
def strTextLt (s t : String) : Bool := textLt s.data t.data

/-- `Database.should_alert` (the cooldown gate, `may_alert` in the spec):
the cutoff is `(datetime.now() - timedelta(hours=cooldown_hours)).isoformat()`
— `now` is the **local** clock in epoch seconds — and the SQL
`created_at > ?` compares the stored `CURRENT_TIMESTAMP` text against that
cutoff text lexicographically (SQLite binary collation on two TEXT values);
the row counts as newer iff its text is strictly greater. -/
def db_should_alert (db : DB) (now : ℤ) (wallet market_id : String)
    (cooldown_hours : ℤ) : Bool :=
  let cutoff := isoTimestamp (now - cooldown_hours * 3600)
  ¬ db.alerts.any (fun a =>
      a.wallet_address == strLower wallet && a.market_id == market_id &&
      strTextLt cutoff a.created_at)

/-- `Database.record_alert`: append one immutable ledger record; the code
supplies no `created_at`, so the store fills `DEFAULT CURRENT_TIMESTAMP` —
`utc_now` is the **UTC** clock in epoch seconds at the insert. -/
def record_alert (db : DB) (utc_now : ℤ) (wallet market_id side : String)
    (score : ℕ) (triggers : List String) : DB :=
  { db with alerts := db.alerts ++
      [{ wallet_address := strLower wallet, market_id := market_id, side := side,
         score := score, triggers := String.intercalate "," triggers,
         created_at := sqliteTimestamp utc_now }] }

/-- Mutable bot state of `PolymarketAlertBot` (`src/main.py`): the database
plus the `trades_processed` and `alerts_sent` counters. -/
structure BotState where
  db : DB
  trades_processed : ℕ
  alerts_sent : ℕ
  deriving Repr, DecidableEq

/-- Control-flow record of one `process_trade` call: whether the scoring
engine was invoked (an `AlertCandidate` constructed), whether delivery was
attempted, and whether an `AlertRecord` was appended. -/
structure ProcessLog where
  analyzed : Bool := false
  send_attempted : Bool := false
  alert_recorded : Bool := false
  deriving Repr, DecidableEq

/-- `PolymarketAlertBot.process_trade` (`src/main.py`): dedup gate, early
minimum-size filter (which still records the trade and updates wallet
stats), scoring, threshold and cooldown gates, delivery, ledger write on
successful delivery only, unconditional trade-record and stats update, and
the periodic baseline refresh every 100th counted trade.  `send_result` is
the outcome of `TelegramNotifier.send_alert` (false also covers the
unconfigured notifier); `now` is the local wall clock (`datetime.now()`,
epoch seconds) used for the cooldown cutoff and the wallet/trade rows, and
`tz` is the local clock's offset ahead of UTC in seconds, so the store's
`CURRENT_TIMESTAMP` at the ledger insert reads `now - tz`. -/
def process_trade (cfg : AnalyzerConfig) (cooldown_hours tz : ℤ) (send_result : Bool)
    (st : BotState) (now : ℤ) (trade : Trade) : BotState × ProcessLog :=
  if is_trade_processed st.db trade.transaction_hash then (st, {})
  else if trade.size < cfg.min_size_usd then
    ({ st with db := update_wallet_stats (record_trade st.db trade) now trade }, {})
  else
    let wallet_stats := get_wallet_stats st.db trade.wallet_address
    let market_baseline := get_market_baseline st.db trade.market_id
    let candidate := analyze cfg now trade wallet_stats market_baseline
    let trades_processed := st.trades_processed + 1
    let (db, alerts_sent, log) :=
      if analyzer_should_alert cfg candidate then
        if db_should_alert st.db now trade.wallet_address trade.market_id cooldown_hours then
          if send_result then
            (record_alert st.db (now - tz) trade.wallet_address trade.market_id trade.side
               candidate.score candidate.triggers,
             st.alerts_sent + 1,
             { analyzed := true, send_attempted := true, alert_recorded := true })
          else (st.db, st.alerts_sent,
                { analyzed := true, send_attempted := true, alert_recorded := false })
        else (st.db, st.alerts_sent,
              { analyzed := true, send_attempted := false, alert_recorded := false })
      else (st.db, st.alerts_sent,
            { analyzed := true, send_attempted := false, alert_recorded := false })
    let db := update_wallet_stats (record_trade db trade) now trade
    let db := if trades_processed % 100 == 0 then update_market_baseline db now trade.market_id
              else db
    ({ db := db, trades_processed := trades_processed, alerts_sent := alerts_sent }, log)

/-- A concrete large trade used to exercise the theorems below. -/
def sampleTrade : Trade :=
  { transaction_hash := "0xaaa1", market_id := "m1", market_question := "q?",
    market_slug := "q-slug", wallet_address := "0xAbC", side := "YES",
    size := 50000, price := 1, timestamp := 0, outcome := "Yes" }

/-- A wallet aggregate with non-positive average size. -/
def wsZeroAvg : WalletStats :=
  { address := "0xdef", total_trades := 10, first_seen := 0, last_seen := 0,
    total_volume := 0, avg_trade_size := 0 }

/-- A baseline with non-positive total volume. -/
def mbZeroVol : MarketBaseline :=
  { condition_id := "m1", trade_count := 0, total_volume := 0, avg_trade_size := 0,
    median_trade_size := 0, p90_trade_size := 0, p95_trade_size := 0, last_updated := 0 }

/-- C2 — Score additivity: for every trade and every pair of (possibly absent)
wallet-stats and baseline snapshots, `analyze` returns exactly the sum of the
configured point values of the triggers whose conditions hold, one trigger
description per fired trigger, and the default point values are 2, 2, 2, 3, 3. -/
theorem score_additivity (cfg : AnalyzerConfig) (now : ℤ) (trade : Trade)
    (ws : Option WalletStats) (mb : Option MarketBaseline) :
    (analyze cfg now trade ws mb).score =
      (if is_fresh_wallet cfg now ws then cfg.fresh_wallet_points else 0) +
      (if is_large_absolute_size cfg trade then cfg.large_size_points else 0) +
      (if is_market_anomaly cfg trade mb then cfg.market_anomaly_points else 0) +
      (if is_wallet_shift cfg trade ws then cfg.wallet_shift_points else 0) +
      (if is_high_concentration cfg trade mb then cfg.concentration_points else 0) ∧
    (analyze cfg now trade ws mb).triggers.length =
      (if is_fresh_wallet cfg now ws then 1 else 0) +
      (if is_large_absolute_size cfg trade then 1 else 0) +
      (if is_market_anomaly cfg trade mb then 1 else 0) +
      (if is_wallet_shift cfg trade ws then 1 else 0) +
      (if is_high_concentration cfg trade mb then 1 else 0) ∧
    ({} : AnalyzerConfig).fresh_wallet_points = 2 ∧
    ({} : AnalyzerConfig).large_size_points = 2 ∧
    ({} : AnalyzerConfig).market_anomaly_points = 2 ∧
    ({} : AnalyzerConfig).wallet_shift_points = 3 ∧
    ({} : AnalyzerConfig).concentration_points = 3 := by
  refine ⟨?_, ?_, rfl, rfl, rfl, rfl, rfl⟩ <;>
  · unfold analyze
    cases hf : is_fresh_wallet cfg now ws <;>
      cases hl : is_large_absolute_size cfg trade <;>
        cases hm : is_market_anomaly cfg trade mb <;>
          cases hw : is_wallet_shift cfg trade ws <;>
            cases hc : is_high_concentration cfg trade mb <;>
              simp

/-- C7 — Totality of the scorer under absent aggregates: the market-anomaly,
wallet-shift and concentration triggers evaluate to not-fired when their
aggregate is absent, the guarded divisions are never reached on a
non-positive denominator, the fresh-wallet trigger fires on absent stats,
and `analyze` with both aggregates absent scores exactly freshness plus the
(possible) large-size points. -/
theorem scorer_absent_totality (cfg : AnalyzerConfig) (now : ℤ) (trade : Trade) :
    is_market_anomaly cfg trade none = false ∧
    is_wallet_shift cfg trade none = false ∧
    is_high_concentration cfg trade none = false ∧
    is_fresh_wallet cfg now none = true ∧
    (∀ w : WalletStats, w.avg_trade_size ≤ 0 → is_wallet_shift cfg trade (some w) = false) ∧
    (∀ b : MarketBaseline, b.total_volume ≤ 0 →
      is_high_concentration cfg trade (some b) = false) ∧
    (analyze cfg now trade none none).score =
      cfg.fresh_wallet_points +
        (if is_large_absolute_size cfg trade then cfg.large_size_points else 0) := by
  refine ⟨rfl, rfl, rfl, rfl, ?_, ?_, ?_⟩
  · intro w hw
    simp [is_wallet_shift, hw]
  · intro b hb
    simp [is_high_concentration, hb]
  · unfold analyze
    cases hl : is_large_absolute_size cfg trade <;>
      simp [is_fresh_wallet, is_market_anomaly, is_wallet_shift, is_high_concentration]

/-- Witness for C7 at concrete inputs: the guard lemmas applied to a wallet
with zero average and a baseline with zero volume, and the absent-aggregate
score of the sample trade (2 freshness + 2 large size). -/
theorem scorer_absent_totality_witness :
    is_wallet_shift {} sampleTrade (some wsZeroAvg) = false ∧
    is_high_concentration {} sampleTrade (some mbZeroVol) = false ∧
    (analyze {} 0 sampleTrade none none).score = 4 := by
  obtain ⟨-, -, -, -, h5, h6, h7⟩ := scorer_absent_totality {} 0 sampleTrade
  refine ⟨h5 wsZeroAvg (by norm_num [wsZeroAvg]), h6 mbZeroVol (by norm_num [mbZeroVol]), ?_⟩
  rw [h7]
  norm_num [is_large_absolute_size, sampleTrade]

/-- A wallet one trade past the freshness count limit, first seen at time 0. -/
def boundaryStats : WalletStats :=
  { address := "0xboundary", total_trades := 6, first_seen := 0, last_seen := 0,
    total_volume := 600, avg_trade_size := 100 }

/-- C4 counterexample — at query time 30 days + 12 hours after `first_seen`
(age strictly greater than 30 days) and `total_trades = 6`, the fresh-wallet
trigger still fires, because `(now - first_seen).days` floors 30.5 days to 30
and `30 ≤ fresh_wallet_max_days` holds. -/
theorem fresh_wallet_boundary_cex :
    boundaryStats.total_trades = 6 ∧
    (30 * 86400 + 43200 : ℤ) - boundaryStats.first_seen > 30 * secondsPerDay ∧
    is_fresh_wallet {} (30 * 86400 + 43200) (some boundaryStats) = true := by
  refine ⟨rfl, by norm_num [boundaryStats, secondsPerDay], ?_⟩
  decide

/-- C4 (amended) — the fresh-wallet trigger fires iff the stats are absent,
or `total_trades ≤ fresh_wallet_max_trades`, or the elapsed time floored to
whole days is at most `fresh_wallet_max_days` (i.e. strictly less than 31
days at the defaults); with `total_trades ≤ 5` it always fires, and with
`total_trades = 6` it never fires once at least 31 whole days have elapsed. -/
theorem fresh_wallet_trigger (cfg : AnalyzerConfig) (now : ℤ) (ws : Option WalletStats) :
    (is_fresh_wallet cfg now ws = true ↔
      (ws = none ∨ ∃ w, ws = some w ∧
        (w.total_trades ≤ cfg.fresh_wallet_max_trades ∨
          (now - w.first_seen).fdiv secondsPerDay ≤ (cfg.fresh_wallet_max_days : ℤ)))) ∧
    (∀ w : WalletStats, w.total_trades ≤ 5 → is_fresh_wallet {} now (some w) = true) ∧
    (∀ w : WalletStats, w.total_trades = 6 → 31 * secondsPerDay ≤ now - w.first_seen →
      is_fresh_wallet {} now (some w) = false) := by
  refine ⟨?_, ?_, ?_⟩
  · cases ws with
    | none => simp [is_fresh_wallet]
    | some w =>
      by_cases h1 : w.total_trades ≤ cfg.fresh_wallet_max_trades
      · simp [is_fresh_wallet, h1]
      · by_cases h2 : (now - w.first_seen).fdiv secondsPerDay ≤ (cfg.fresh_wallet_max_days : ℤ)
        · simp [is_fresh_wallet, h1, h2]
        · simp [is_fresh_wallet, h1, h2]
  · intro w hw
    simp [is_fresh_wallet, hw]
  · intro w h6 hage
    have hpos : (0 : ℤ) < secondsPerDay := by norm_num [secondsPerDay]
    have h31 : (31 : ℤ) ≤ (now - w.first_seen).fdiv secondsPerDay := by
      rw [Int.fdiv_eq_ediv _ (le_of_lt hpos)]
      exact (Int.le_ediv_iff_mul_le hpos).2 (by linarith [hage])
    simp only [is_fresh_wallet, h6]
    rw [if_neg (by norm_num), if_neg (by intro hc; norm_num at hc; omega)]

/-- Witness for C4's amended theorem: a 3-trade wallet always counts fresh,
and a 6-trade wallet first seen 40 days ago does not. -/
theorem fresh_wallet_trigger_witness :
    is_fresh_wallet {} 0 (some ⟨"0xa", 3, 0, 0, 30, 10⟩) = true ∧
    is_fresh_wallet {} (40 * 86400) (some boundaryStats) = false := by
  constructor
  · exact (fresh_wallet_trigger {} 0 none).2.1 _ (by norm_num)
  · exact (fresh_wallet_trigger {} (40 * 86400) none).2.2 boundaryStats rfl
      (by norm_num [boundaryStats, secondsPerDay])

/-- The spec's example sample: sizes 10, 20, ..., 300 (n = 30, ascending). -/
def sampleSizes : List ℚ :=
  [10, 20, 30, 40, 50, 60, 70, 80, 90, 100, 110, 120, 130, 140, 150,
   160, 170, 180, 190, 200, 210, 220, 230, 240, 250, 260, 270, 280, 290, 300]

/-- C3 — Percentile formula: on every non-empty ascending-sorted size list
`S` of length `n`, the baseline refresh computes `median = S[n / 2]`,
`p90 = S[⌊n * 0.90⌋]` for `n > 10` and otherwise `S[n - 1]`,
`p95 = S[⌊n * 0.95⌋]` for `n > 20` and otherwise `S[n - 1]`; for `n = 30`
the indices are 27 and 28, the clamps switch exactly at `n = 11` / `n = 21`,
and on a sorted list `S[n - 1]` is the maximum. -/
theorem percentile_formula (cid : String) (now : ℤ) (S : List ℚ) (hS : S ≠ []) :
    ∃ mb, compute_baseline cid now S = some mb ∧
      mb.trade_count = S.length ∧
      mb.total_volume = S.sum ∧
      mb.avg_trade_size = S.sum / (S.length : ℚ) ∧
      mb.median_trade_size = S.getD (S.length / 2) 0 ∧
      (S.length > 10 → mb.p90_trade_size = S.getD (S.length * 9 / 10) 0) ∧
      (¬ S.length > 10 → mb.p90_trade_size = S.getD (S.length - 1) 0) ∧
      (S.length > 20 → mb.p95_trade_size = S.getD (S.length * 19 / 20) 0) ∧
      (¬ S.length > 20 → mb.p95_trade_size = S.getD (S.length - 1) 0) ∧
      (S.length = 30 → mb.p90_trade_size = S.getD 27 0 ∧ mb.p95_trade_size = S.getD 28 0) ∧
      (S.length = 11 → mb.p90_trade_size = S.getD 9 0) ∧
      (S.length = 10 → mb.p90_trade_size = S.getD 9 0) ∧
      (S.length = 21 → mb.p95_trade_size = S.getD 19 0) ∧
      (S.length = 20 → mb.p95_trade_size = S.getD 19 0) ∧
      (S.Sorted (· ≤ ·) → ∀ x ∈ S, x ≤ S.getD (S.length - 1) 0) := by
  have hne : ¬ S.isEmpty := by simpa [List.isEmpty_iff] using hS
  have hlen : 0 < S.length := List.length_pos.2 hS
  refine ⟨_, by rw [compute_baseline, if_neg hne], rfl, rfl, rfl, rfl, ?_, ?_, ?_, ?_, ?_, ?_, ?_, ?_, ?_, ?_⟩
  · intro h; simp only [if_pos h]
  · intro h; simp only [if_neg h]
  · intro h; simp only [if_pos h]
  · intro h; simp only [if_neg h]
  · intro h
    rw [h]
    norm_num
  · intro h; rw [h]; norm_num
  · intro h; rw [h]; norm_num
  · intro h; rw [h]; norm_num
  · intro h; rw [h]; norm_num
  · intro hsorted x hx
    obtain ⟨i, rfl⟩ := List.mem_iff_get.mp hx
    have hidx : S.length - 1 < S.length := by omega
    have : S.getD (S.length - 1) 0 = S.get ⟨S.length - 1, hidx⟩ := by
      simp [List.getD_eq_getElem?_getD, List.getElem?_eq_getElem hidx]
    rw [this]
    exact hsorted.rel_get_of_le (by simp [Fin.le_def]; omega)

/-- Witness for C3: on the spec's 30-element sample, the computed p90 is the
28th element (280) and the p95 the 29th (290), zero-indexed 27 and 28. -/
theorem percentile_formula_witness :
    ∃ mb, compute_baseline "m1" 0 sampleSizes = some mb ∧
      mb.p90_trade_size = 280 ∧ mb.p95_trade_size = 290 := by
  obtain ⟨mb, hmb, -, -, -, -, -, -, -, -, h30, -, -, -, -, -⟩ :=
    percentile_formula "m1" 0 sampleSizes (by decide)
  obtain ⟨h90, h95⟩ := h30 (by decide)
  refine ⟨mb, hmb, ?_, ?_⟩
  · rw [h90]; decide
  · rw [h95]; decide

/-- C1 — Cooldown gate, code bug evaluation: an alert for ("0xAb", "m1")
recorded at 2024-03-15 12:00:00 UTC (epoch 1710504000) is stored as the
text "2024-03-15 12:00:00"; a query only one hour later (same clock, zero
timezone offset) builds the cutoff text "2024-03-15T07:00:00", and because
the space at position 10 sorts below the letter T, the stored row is not
"newer than" the cutoff — `should_alert` answers true (gate open) one hour
into the six-hour window, where the claim requires false.  The last
conjunct records that the query instant really lies inside the window. -/
theorem cooldown_gate_bug :
    sqliteTimestamp 1710504000 = "2024-03-15 12:00:00" ∧
    isoTimestamp (1710504000 + 3600 - 6 * 3600) = "2024-03-15T07:00:00" ∧
    db_should_alert
        (record_alert ⟨[], [], [], []⟩ 1710504000 "0xAb" "m1" "YES" 7 ["Large size"])
        (1710504000 + 3600) "0xAb" "m1" 6 = true ∧
    (1710504000 : ℤ) ≤ 1710504000 + 3600 ∧
    (1710504000 : ℤ) + 3600 < 1710504000 + 6 * 3600 := by
  refine ⟨by decide, by decide, by decide, by decide, by decide⟩

/-- `find?` on an address keyed list commutes with an address-preserving map. -/
theorem find?_map_address (l : List WalletStats) (a : String) (f : WalletStats → WalletStats)
    (hf : ∀ w, (f w).address = w.address) :
    (l.map f).find? (fun w => w.address == a) = (l.find? (fun w => w.address == a)).map f := by
  induction l with
  | nil => rfl
  | cons w l ih =>
    simp only [List.map_cons, List.find?_cons]
    rw [hf w]
    cases hw : (w.address == a) <;> simp [hw, ih]

/-- C6 — Wallet statistics update invariant: creating stats sets
`total_trades = 1`, `first_seen = last_seen = now`, `total_volume = avg =
size`; updating increments `total_trades`, adds the size to `total_volume`,
sets `last_seen = now`, keeps `first_seen`, and recomputes the average; and
after any update the stored average equals `total_volume / total_trades`. -/
theorem wallet_stats_update (db : DB) (now : ℤ) (t : Trade) :
    (get_wallet_stats db t.wallet_address = none →
      get_wallet_stats (update_wallet_stats db now t) t.wallet_address =
        some ⟨strLower t.wallet_address, 1, now, now, t.size, t.size⟩) ∧
    (∀ s, get_wallet_stats db t.wallet_address = some s →
      get_wallet_stats (update_wallet_stats db now t) t.wallet_address =
        some ⟨s.address, s.total_trades + 1, s.first_seen, now, s.total_volume + t.size,
          (s.total_volume + t.size) / ((s.total_trades : ℚ) + 1)⟩) ∧
    (∀ s', get_wallet_stats (update_wallet_stats db now t) t.wallet_address = some s' →
      s'.avg_trade_size = s'.total_volume / (s'.total_trades : ℚ)) := by
  have hcreate : get_wallet_stats db t.wallet_address = none →
      get_wallet_stats (update_wallet_stats db now t) t.wallet_address =
        some ⟨strLower t.wallet_address, 1, now, now, t.size, t.size⟩ := by
    intro hget
    have hfind : db.wallets.find? (fun w => w.address == strLower t.wallet_address) = none :=
      hget
    simp only [update_wallet_stats, get_wallet_stats, hfind]
    rw [List.find?_append, hfind]
    simp
  have hupd : ∀ s, get_wallet_stats db t.wallet_address = some s →
      get_wallet_stats (update_wallet_stats db now t) t.wallet_address =
        some ⟨s.address, s.total_trades + 1, s.first_seen, now, s.total_volume + t.size,
          (s.total_volume + t.size) / ((s.total_trades : ℚ) + 1)⟩ := by
    intro s hget
    have hfind : db.wallets.find? (fun w => w.address == strLower t.wallet_address) = some s :=
      hget
    have hps : (s.address == strLower t.wallet_address) = true := by
      simpa using List.find?_some hfind
    simp only [update_wallet_stats, get_wallet_stats, hfind]
    rw [find?_map_address _ _ _ (by
      intro w
      by_cases hw : (w.address == strLower t.wallet_address) = true <;> simp [hw])]
    rw [hfind]
    have heq : s.address = strLower t.wallet_address := by simpa using hps
    simp [heq, Nat.cast_add]
  refine ⟨hcreate, hupd, ?_⟩
  intro s' hs'
  cases hget : get_wallet_stats db t.wallet_address with
  | none =>
    rw [hcreate hget] at hs'
    obtain rfl := Option.some.injEq .. ▸ hs'.symm
    simp
  | some s =>
    rw [hupd s hget] at hs'
    obtain rfl := Option.some.injEq .. ▸ hs'.symm
    push_cast
    simp

/-- Witness for C6: recording the sample trade twice from an empty store —
creation with count 1 and average = size, then an update to count 2,
doubled volume, recomputed average, unchanged `first_seen`. -/
theorem wallet_stats_update_witness :
    get_wallet_stats (update_wallet_stats ⟨[], [], [], []⟩ 100 sampleTrade) "0xAbC" =
      some ⟨"0xabc", 1, 100, 100, 50000, 50000⟩ ∧
    get_wallet_stats (update_wallet_stats
        (update_wallet_stats ⟨[], [], [], []⟩ 100 sampleTrade) 200 sampleTrade) "0xAbC" =
      some ⟨"0xabc", 2, 100, 200, 100000, 50000⟩ := by
  have h1 := (wallet_stats_update ⟨[], [], [], []⟩ 100 sampleTrade).1 (by rfl)
  have h1' : get_wallet_stats (update_wallet_stats ⟨[], [], [], []⟩ 100 sampleTrade)
      sampleTrade.wallet_address = some ⟨"0xabc", 1, 100, 100, 50000, 50000⟩ := by
    rw [h1]; decide
  have h2 := (wallet_stats_update (update_wallet_stats ⟨[], [], [], []⟩ 100 sampleTrade)
      200 sampleTrade).2.1 _ h1'
  constructor
  · exact h1'
  · rw [show ("0xAbC" : String) = sampleTrade.wallet_address from rfl, h2]
    norm_num [sampleTrade]

theorem record_trade_wallets (db : DB) (t : Trade) : (record_trade db t).wallets = db.wallets := by
  unfold record_trade; split <;> rfl

theorem record_trade_alerts (db : DB) (t : Trade) : (record_trade db t).alerts = db.alerts := by
  unfold record_trade; split <;> rfl

theorem record_trade_baselines (db : DB) (t : Trade) :
    (record_trade db t).baselines = db.baselines := by
  unfold record_trade; split <;> rfl

theorem update_wallet_stats_trades (db : DB) (now : ℤ) (t : Trade) :
    (update_wallet_stats db now t).trades = db.trades := by
  unfold update_wallet_stats
  cases get_wallet_stats db t.wallet_address <;> rfl

theorem update_wallet_stats_alerts (db : DB) (now : ℤ) (t : Trade) :
    (update_wallet_stats db now t).alerts = db.alerts := by
  unfold update_wallet_stats
  cases get_wallet_stats db t.wallet_address <;> rfl

theorem update_wallet_stats_baselines (db : DB) (now : ℤ) (t : Trade) :
    (update_wallet_stats db now t).baselines = db.baselines := by
  unfold update_wallet_stats
  cases get_wallet_stats db t.wallet_address <;> rfl

theorem record_alert_wallets (db : DB) (now : ℤ) (w m s : String) (sc : ℕ) (tr : List String) :
    (record_alert db now w m s sc tr).wallets = db.wallets := rfl

theorem record_alert_trades (db : DB) (now : ℤ) (w m s : String) (sc : ℕ) (tr : List String) :
    (record_alert db now w m s sc tr).trades = db.trades := rfl

theorem record_alert_baselines (db : DB) (now : ℤ) (w m s : String) (sc : ℕ) (tr : List String) :
    (record_alert db now w m s sc tr).baselines = db.baselines := rfl

theorem update_market_baseline_wallets (db : DB) (now : ℤ) (cid : String) :
    (update_market_baseline db now cid).wallets = db.wallets := by
  unfold update_market_baseline
  dsimp only
  split <;> rfl

theorem update_market_baseline_trades (db : DB) (now : ℤ) (cid : String) :
    (update_market_baseline db now cid).trades = db.trades := by
  unfold update_market_baseline
  dsimp only
  split <;> rfl

theorem update_market_baseline_alerts (db : DB) (now : ℤ) (cid : String) :
    (update_market_baseline db now cid).alerts = db.alerts := by
  unfold update_market_baseline
  dsimp only
  split <;> rfl

/-- `is_trade_processed` reads only the `trades` table. -/
theorem is_trade_processed_trades (db1 db2 : DB) (h : db1.trades = db2.trades) (x : String) :
    is_trade_processed db1 x = is_trade_processed db2 x := by
  simp [is_trade_processed, h]

/-- After `record_trade`, the trade's hash is present. -/
theorem record_trade_processed (db : DB) (t : Trade) :
    is_trade_processed (record_trade db t) t.transaction_hash = true := by
  unfold record_trade
  split
  · assumption
  · simp [is_trade_processed]

/-- `get_wallet_stats` reads only the `wallets` table. -/
theorem get_wallet_stats_wallets (db1 db2 : DB) (h : db1.wallets = db2.wallets) (a : String) :
    get_wallet_stats db1 a = get_wallet_stats db2 a := by
  simp [get_wallet_stats, h]

/-- The `wallets` component of `update_wallet_stats` depends on the input
database only through its `wallets` component. -/
theorem update_wallet_stats_wallets_congr (db1 db2 : DB) (h : db1.wallets = db2.wallets)
    (now : ℤ) (t : Trade) :
    (update_wallet_stats db1 now t).wallets = (update_wallet_stats db2 now t).wallets := by
  unfold update_wallet_stats
  rw [get_wallet_stats_wallets db1 db2 h]
  cases get_wallet_stats db2 t.wallet_address <;> simp [h]

/-- The `trades` component of `record_trade` depends on the input database
only through its `trades` component. -/
theorem record_trade_trades_congr (db1 db2 : DB) (h : db1.trades = db2.trades) (t : Trade) :
    (record_trade db1 t).trades = (record_trade db2 t).trades := by
  unfold record_trade
  rw [is_trade_processed_trades db1 db2 h]
  split <;> simp [h]

/-- `db_should_alert` reads only the `alerts` ledger. -/
theorem db_should_alert_alerts (db1 db2 : DB) (h : db1.alerts = db2.alerts)
    (now : ℤ) (w m : String) (c : ℤ) :
    db_should_alert db1 now w m c = db_should_alert db2 now w m c := by
  simp [db_should_alert, h]

/-- C9 — Minimum-size filter: a new trade with size strictly below
`min_size_usd` is never scored (no `AlertCandidate` is built, delivery is
never attempted, no ledger record is written, the counters stay), yet the
trade is still recorded and the wallet statistics still updated. -/
theorem min_size_filter (cfg : AnalyzerConfig) (ch tz : ℤ) (sr : Bool) (st : BotState)
    (now : ℤ) (t : Trade)
    (hnew : is_trade_processed st.db t.transaction_hash = false)
    (hsmall : t.size < cfg.min_size_usd) :
    process_trade cfg ch tz sr st now t =
      ({ st with db := update_wallet_stats (record_trade st.db t) now t }, {}) ∧
    (process_trade cfg ch tz sr st now t).2.analyzed = false ∧
    (process_trade cfg ch tz sr st now t).2.send_attempted = false ∧
    (process_trade cfg ch tz sr st now t).2.alert_recorded = false ∧
    (process_trade cfg ch tz sr st now t).1.db.alerts = st.db.alerts ∧
    (process_trade cfg ch tz sr st now t).1.alerts_sent = st.alerts_sent ∧
    (process_trade cfg ch tz sr st now t).1.trades_processed = st.trades_processed ∧
    is_trade_processed (process_trade cfg ch tz sr st now t).1.db t.transaction_hash = true := by
  have hmain : process_trade cfg ch tz sr st now t =
      ({ st with db := update_wallet_stats (record_trade st.db t) now t }, {}) := by
    unfold process_trade
    rw [if_neg (by simp [hnew]), if_pos hsmall]
  refine ⟨hmain, by rw [hmain], by rw [hmain], by rw [hmain], ?_, by rw [hmain],
    by rw [hmain], ?_⟩
  · rw [hmain]
    show (update_wallet_stats (record_trade st.db t) now t).alerts = st.db.alerts
    rw [update_wallet_stats_alerts, record_trade_alerts]
  · rw [hmain]
    show is_trade_processed (update_wallet_stats (record_trade st.db t) now t)
      t.transaction_hash = true
    rw [is_trade_processed_trades _ (record_trade st.db t) (update_wallet_stats_trades ..)]
    exact record_trade_processed st.db t

/-- A concrete trade below the default 2000 USD minimum-size filter. -/
def smallTrade : Trade :=
  { transaction_hash := "0xsmall", market_id := "m1", market_question := "q?",
    market_slug := "q-slug", wallet_address := "0xAbC", side := "NO",
    size := 100, price := 1, timestamp := 0, outcome := "No" }

/-- Witness for C9: a small (size 100) fresh trade on an empty state is
recorded and counted into wallet stats but produces no alert activity. -/
theorem min_size_filter_witness :
    (process_trade {} 6 0 true ⟨⟨[], [], [], []⟩, 0, 0⟩ 50 smallTrade).2.analyzed = false ∧
    (process_trade {} 6 0 true ⟨⟨[], [], [], []⟩, 0, 0⟩ 50 smallTrade).1.db.alerts = [] ∧
    is_trade_processed (process_trade {} 6 0 true ⟨⟨[], [], [], []⟩, 0, 0⟩ 50 smallTrade).1.db
      smallTrade.transaction_hash = true := by
  obtain ⟨-, h2, -, -, h5, -, -, h8⟩ :=
    min_size_filter {} 6 0 true ⟨⟨[], [], [], []⟩, 0, 0⟩ 50 smallTrade rfl (by norm_num [smallTrade])
  exact ⟨h2, h5, h8⟩

/-- Abbreviation for the candidate `process_trade` builds for a new trade at
or above the minimum size. -/
def tradeCandidate (cfg : AnalyzerConfig) (now : ℤ) (db : DB) (t : Trade) : AlertCandidate :=
  analyze cfg now t (get_wallet_stats db t.wallet_address) (get_market_baseline db t.market_id)

/-- A duplicate transaction hash short-circuits `process_trade` entirely. -/
theorem process_trade_dup_eq (cfg : AnalyzerConfig) (ch tz : ℤ) (sr : Bool) (st : BotState)
    (now : ℤ) (t : Trade) (h : is_trade_processed st.db t.transaction_hash = true) :
    process_trade cfg ch tz sr st now t = (st, {}) := by
  unfold process_trade
  rw [if_pos h]

/-- Normal form of `process_trade` on a new trade at or above the minimum
size: optional ledger append (threshold, cooldown and delivery permitting),
then trade record, stats update and the periodic baseline refresh. -/
theorem process_trade_big_eq (cfg : AnalyzerConfig) (ch tz : ℤ) (sr : Bool) (st : BotState)
    (now : ℤ) (t : Trade)
    (hnew : is_trade_processed st.db t.transaction_hash = false)
    (hbig : ¬ t.size < cfg.min_size_usd) :
    process_trade cfg ch tz sr st now t =
      ({ db :=
           (fun db1 => if (st.trades_processed + 1) % 100 == 0 then
               update_market_baseline db1 now t.market_id else db1)
             (update_wallet_stats (record_trade
               (if analyzer_should_alert cfg (tradeCandidate cfg now st.db t) &&
                   (db_should_alert st.db now t.wallet_address t.market_id ch && sr) then
                 record_alert st.db (now - tz) t.wallet_address t.market_id t.side
                   (tradeCandidate cfg now st.db t).score
                   (tradeCandidate cfg now st.db t).triggers
               else st.db) t) now t),
         trades_processed := st.trades_processed + 1,
         alerts_sent :=
           if analyzer_should_alert cfg (tradeCandidate cfg now st.db t) &&
               (db_should_alert st.db now t.wallet_address t.market_id ch && sr) then
             st.alerts_sent + 1
           else st.alerts_sent },
       { analyzed := true,
         send_attempted := analyzer_should_alert cfg (tradeCandidate cfg now st.db t) &&
           db_should_alert st.db now t.wallet_address t.market_id ch,
         alert_recorded := analyzer_should_alert cfg (tradeCandidate cfg now st.db t) &&
           (db_should_alert st.db now t.wallet_address t.market_id ch && sr) }) := by
  unfold process_trade tradeCandidate
  rw [if_neg (by simp [hnew]), if_neg hbig]
  dsimp only
  cases hfire : analyzer_should_alert cfg (analyze cfg now t
      (get_wallet_stats st.db t.wallet_address) (get_market_baseline st.db t.market_id)) <;>
    cases hcool : db_should_alert st.db now t.wallet_address t.market_id ch <;>
      cases sr <;>
        simp [hfire, hcool]

/-- Normal form of `process_trade` on a new trade below the minimum size. -/
theorem process_trade_small_eq (cfg : AnalyzerConfig) (ch tz : ℤ) (sr : Bool) (st : BotState)
    (now : ℤ) (t : Trade)
    (hnew : is_trade_processed st.db t.transaction_hash = false)
    (hsmall : t.size < cfg.min_size_usd) :
    process_trade cfg ch tz sr st now t =
      ({ st with db := update_wallet_stats (record_trade st.db t) now t }, {}) := by
  unfold process_trade
  rw [if_neg (by simp [hnew]), if_pos hsmall]

/-- After any `process_trade` call the trade's hash is in the trade store. -/
theorem process_trade_processed_after (cfg : AnalyzerConfig) (ch tz : ℤ) (sr : Bool)
    (st : BotState) (now : ℤ) (t : Trade) :
    is_trade_processed (process_trade cfg ch tz sr st now t).1.db t.transaction_hash = true := by
  by_cases hdup : is_trade_processed st.db t.transaction_hash = true
  · rw [process_trade_dup_eq cfg ch tz sr st now t hdup]
    exact hdup
  · have hnew : is_trade_processed st.db t.transaction_hash = false := by
      simpa using hdup
    by_cases hsmall : t.size < cfg.min_size_usd
    · rw [process_trade_small_eq cfg ch tz sr st now t hnew hsmall]
      show is_trade_processed (update_wallet_stats (record_trade st.db t) now t)
        t.transaction_hash = true
      rw [is_trade_processed_trades _ (record_trade st.db t) (update_wallet_stats_trades ..)]
      exact record_trade_processed st.db t
    · rw [process_trade_big_eq cfg ch tz sr st now t hnew hsmall]
      dsimp only
      split
      · rw [is_trade_processed_trades _ _ (update_market_baseline_trades ..),
          is_trade_processed_trades _ _ (update_wallet_stats_trades ..)]
        exact record_trade_processed _ t
      · rw [is_trade_processed_trades _ _ (update_wallet_stats_trades ..)]
        exact record_trade_processed _ t

/-- C5 — Idempotence of dedup plus record: once a `process_trade` run for a
trade has completed, running it again with the same transaction identifier
(at any later time, whatever the delivery outcome) returns the state
entirely unchanged — wallet statistics, stored trades and the alert ledger
included — and inserting an already-seen transaction identifier into the
trade store is a no-op rather than an error. -/
theorem dedup_record_idempotent (cfg : AnalyzerConfig) (ch tz : ℤ) (sr sr2 : Bool)
    (st : BotState) (now now2 : ℤ) (t : Trade) :
    process_trade cfg ch tz sr2 (process_trade cfg ch tz sr st now t).1 now2 t =
      ((process_trade cfg ch tz sr st now t).1, {}) ∧
    (∀ (db : DB) (u : Trade), is_trade_processed db u.transaction_hash = true →
      record_trade db u = db) := by
  constructor
  · exact process_trade_dup_eq cfg ch tz sr2 _ now2 t
      (process_trade_processed_after cfg ch tz sr st now t)
  · intro db u hu
    unfold record_trade
    rw [if_pos hu]

/-- Witness for C5: the small sample trade processed twice from the empty
state; the second run is the identity, and re-inserting its hash into the
trade store changes nothing. -/
theorem dedup_record_idempotent_witness :
    process_trade {} 6 0 true (process_trade {} 6 0 true ⟨⟨[], [], [], []⟩, 0, 0⟩ 0 smallTrade).1
        10 smallTrade =
      ((process_trade {} 6 0 true ⟨⟨[], [], [], []⟩, 0, 0⟩ 0 smallTrade).1, {}) ∧
    record_trade (record_trade ⟨[], [], [], []⟩ smallTrade) smallTrade =
      record_trade ⟨[], [], [], []⟩ smallTrade := by
  obtain ⟨h1, h2⟩ :=
    dedup_record_idempotent {} 6 0 true true ⟨⟨[], [], [], []⟩, 0, 0⟩ 0 10 smallTrade
  exact ⟨h1, h2 _ smallTrade (by decide)⟩

/-- C8 — Statistics reflect all flow: every non-duplicate trade — below or
above the minimum-size filter — ends with its row appended to the trade
store and the wallet-statistics record step applied exactly once to it. -/
theorem all_flow_recorded (cfg : AnalyzerConfig) (ch tz : ℤ) (sr : Bool) (st : BotState)
    (now : ℤ) (t : Trade)
    (hnew : is_trade_processed st.db t.transaction_hash = false) :
    (process_trade cfg ch tz sr st now t).1.db.trades = (record_trade st.db t).trades ∧
    (process_trade cfg ch tz sr st now t).1.db.wallets =
      (update_wallet_stats (record_trade st.db t) now t).wallets ∧
    (record_trade st.db t).trades = st.db.trades ++
      [⟨t.transaction_hash, t.market_id, strLower t.wallet_address, t.side, t.size,
        t.price, t.timestamp⟩] := by
  have happend : (record_trade st.db t).trades = st.db.trades ++
      [⟨t.transaction_hash, t.market_id, strLower t.wallet_address, t.side, t.size,
        t.price, t.timestamp⟩] := by
    unfold record_trade
    rw [if_neg (by simp [hnew])]
  by_cases hsmall : t.size < cfg.min_size_usd
  · rw [process_trade_small_eq cfg ch tz sr st now t hnew hsmall]
    exact ⟨update_wallet_stats_trades .., rfl, happend⟩
  · rw [process_trade_big_eq cfg ch tz sr st now t hnew hsmall]
    dsimp only
    have h0t : (if analyzer_should_alert cfg (tradeCandidate cfg now st.db t) &&
        (db_should_alert st.db now t.wallet_address t.market_id ch && sr) then
          record_alert st.db (now - tz) t.wallet_address t.market_id t.side
            (tradeCandidate cfg now st.db t).score (tradeCandidate cfg now st.db t).triggers
        else st.db).trades = st.db.trades := by
      split <;> rfl
    have h0w : (if analyzer_should_alert cfg (tradeCandidate cfg now st.db t) &&
        (db_should_alert st.db now t.wallet_address t.market_id ch && sr) then
          record_alert st.db (now - tz) t.wallet_address t.market_id t.side
            (tradeCandidate cfg now st.db t).score (tradeCandidate cfg now st.db t).triggers
        else st.db).wallets = st.db.wallets := by
      split <;> rfl
    refine ⟨?_, ?_, happend⟩
    · split
      · rw [update_market_baseline_trades, update_wallet_stats_trades,
          record_trade_trades_congr _ st.db h0t]
      · rw [update_wallet_stats_trades, record_trade_trades_congr _ st.db h0t]
    · split
      · rw [update_market_baseline_wallets]
        exact update_wallet_stats_wallets_congr _ _
          (by rw [record_trade_wallets, record_trade_wallets, h0w]) now t
      · exact update_wallet_stats_wallets_congr _ _
          (by rw [record_trade_wallets, record_trade_wallets, h0w]) now t

/-- Witness for C8: the large sample trade on the empty state ends with one
stored trade row (lowercased wallet) and one created wallet-stats row. -/
theorem all_flow_recorded_witness :
    (process_trade {} 6 0 true ⟨⟨[], [], [], []⟩, 0, 0⟩ 0 sampleTrade).1.db.trades =
      [⟨"0xaaa1", "m1", "0xabc", "YES", 50000, 1, 0⟩] ∧
    (process_trade {} 6 0 true ⟨⟨[], [], [], []⟩, 0, 0⟩ 0 sampleTrade).1.db.wallets =
      [⟨"0xabc", 1, 0, 0, 50000, 50000⟩] := by
  obtain ⟨h1, h2, h3⟩ :=
    all_flow_recorded {} 6 0 true ⟨⟨[], [], [], []⟩, 0, 0⟩ 0 sampleTrade rfl
  constructor
  · rw [h1, h3]
    decide
  · rw [h2]
    decide

/-- C10 — Failed delivery leaves no trace in the ledger: when the notifier
returns false (including the unconfigured notifier), no `AlertRecord` is
appended and the alerts-sent counter stays, so the cooldown gate answers
every later query exactly as before and a subsequent qualifying trade for
the pair attempts delivery again; the trade record and wallet-statistics
writes still occur. -/
theorem delivery_failure_no_cooldown (cfg : AnalyzerConfig) (ch tz : ℤ) (st : BotState)
    (now : ℤ) (t : Trade)
    (hnew : is_trade_processed st.db t.transaction_hash = false)
    (hbig : ¬ t.size < cfg.min_size_usd) :
    (process_trade cfg ch tz false st now t).1.db.alerts = st.db.alerts ∧
    (process_trade cfg ch tz false st now t).1.alerts_sent = st.alerts_sent ∧
    (process_trade cfg ch tz false st now t).2.alert_recorded = false ∧
    (process_trade cfg ch tz false st now t).2.send_attempted =
      (analyzer_should_alert cfg (tradeCandidate cfg now st.db t) &&
        db_should_alert st.db now t.wallet_address t.market_id ch) ∧
    (process_trade cfg ch tz false st now t).1.db.trades = (record_trade st.db t).trades ∧
    (process_trade cfg ch tz false st now t).1.db.wallets =
      (update_wallet_stats (record_trade st.db t) now t).wallets ∧
    (∀ (q : ℤ) (w m : String) (c : ℤ),
      db_should_alert (process_trade cfg ch tz false st now t).1.db q w m c =
        db_should_alert st.db q w m c) ∧
    (∀ (sr2 : Bool) (now2 : ℤ) (t2 : Trade),
      is_trade_processed (process_trade cfg ch tz false st now t).1.db t2.transaction_hash
          = false →
      ¬ t2.size < cfg.min_size_usd →
      analyzer_should_alert cfg
        (tradeCandidate cfg now2 (process_trade cfg ch tz false st now t).1.db t2) = true →
      db_should_alert st.db now2 t2.wallet_address t2.market_id ch = true →
      (process_trade cfg ch tz sr2 (process_trade cfg ch tz false st now t).1 now2
        t2).2.send_attempted = true) := by
  have hE := process_trade_big_eq cfg ch tz false st now t hnew hbig
  have halerts : (process_trade cfg ch tz false st now t).1.db.alerts = st.db.alerts := by
    rw [hE]
    dsimp only
    simp only [Bool.and_false, Bool.false_eq_true, if_false]
    split
    · rw [update_market_baseline_alerts, update_wallet_stats_alerts, record_trade_alerts]
    · rw [update_wallet_stats_alerts, record_trade_alerts]
  refine ⟨halerts, ?_, ?_, ?_, ?_, ?_, ?_, ?_⟩
  · rw [hE]
    dsimp only
    simp
  · rw [hE]
    dsimp only
    simp
  · rw [hE]
  · rw [hE]
    dsimp only
    simp only [Bool.and_false, Bool.false_eq_true, if_false]
    split
    · rw [update_market_baseline_trades, update_wallet_stats_trades]
    · rw [update_wallet_stats_trades]
  · rw [hE]
    dsimp only
    simp only [Bool.and_false, Bool.false_eq_true, if_false]
    split
    · rw [update_market_baseline_wallets]
    · rfl
  · intro q w m c
    exact db_should_alert_alerts _ _ halerts q w m c
  · intro sr2 now2 t2 hnew2 hbig2 hfire2 hcool2
    rw [process_trade_big_eq cfg ch tz sr2 _ now2 t2 hnew2 hbig2]
    dsimp only
    rw [hfire2, db_should_alert_alerts _ _ halerts, hcool2]
    rfl

/-- A pre-seeded baseline for market "m1": positive p95, zero total volume. -/
def mbSeed : MarketBaseline := ⟨"m1", 10, 0, 0, 0, 30000, 40000, 0⟩

/-- Bot state with the seeded baseline, no wallets, no trades, no alerts. -/
def stSeed : BotState := ⟨⟨[], [], [mbSeed], []⟩, 0, 0⟩

/-- A subsequent qualifying trade: new hash, previously unseen wallet. -/
def retryTrade : Trade :=
  { sampleTrade with transaction_hash := "0xbbb2", wallet_address := "0xDeF" }

/-- Witness for C10: the sample trade scores 6 (fresh + large + market
anomaly) against the seeded baseline, delivery fails, the ledger and the
counter stay empty, and a later qualifying trade still attempts delivery. -/
theorem delivery_failure_witness :
    (process_trade {} 6 0 false stSeed 0 sampleTrade).1.db.alerts = [] ∧
    (process_trade {} 6 0 false stSeed 0 sampleTrade).1.alerts_sent = 0 ∧
    (process_trade {} 6 0 false stSeed 0 sampleTrade).2.send_attempted = true ∧
    (process_trade {} 6 0 true (process_trade {} 6 0 false stSeed 0 sampleTrade).1 0
      retryTrade).2.send_attempted = true := by
  obtain ⟨h1, h2, -, h4, -, -, -, h8⟩ :=
    delivery_failure_no_cooldown {} 6 0 stSeed 0 sampleTrade (by decide) (by decide)
  refine ⟨h1.trans rfl, h2.trans rfl, ?_, ?_⟩
  · rw [h4]
    decide
  · exact h8 true 0 retryTrade (by decide) (by decide) (by decide) (by decide)
